import Mathlib

/-!
Shallow embedding of the pluggo plugin framework (github.com/henomis/pluggo).

Client side (part_000): `Client` lifecycle (`Open`, `Close`, `Connection`,
`Schemas`, `waitForHealth`); plugin side (part_003): `Plugin` with function
registration (`AddFunction`, `validateFunctionName`) and `Start`; the typed
stub (`function.go`: `NewFunction`, `Call`) and the HTTP function handler
(`handler.go`: `NewFunctionHandler`, `decodeInput`).

External effects (the OS, the HTTP transport, the JSON codec) are supplied as
explicit environment records; Go pointers become `Option`, a Go `panic`
becomes an explicit panic value, and emitted events (stdout writes, HTTP
requests) are returned as traces.
-/

namespace Pluggo

/-- Times are modelled in milliseconds. -/
abbrev Millis := Nat

/-- `DefaultFunctionExecutionTimeout = 2 * time.Minute`. -/
def DefaultFunctionExecutionTimeout : Millis := 120000

/-- `DefaultHealthCheckTimeout = 5 * time.Second`. -/
def DefaultHealthCheckTimeout : Millis := 5000

/-- `DefaultHealthCheckInterval = 150 * time.Millisecond`. -/
def DefaultHealthCheckInterval : Millis := 150

def defaultSchema : String := "http://"
def defaultHost : String := "127.0.0.1"
def schemasPath : String := "/_schemas"
def healthPath : String := "/_healthz"
def basePath : String := "/"

/-- `Schema` from part_003: input and output JSON schemas of one function.
The schema documents themselves are opaque to every claim, so their two
`map[string]any` fields are abstract identifiers. -/
structure Schema where
  input : Nat
  output : Nat
deriving DecidableEq, Repr

/-- `Handler` from handler.go: the HTTP handler (an opaque identifier for the
closure) plus the function's `Schema`. -/
structure Handler where
  HTTPHandler : Nat
  Schema : Schema
deriving DecidableEq, Repr

/-- The handlers that can be installed on the plugin's `http.ServeMux`. -/
inductive RouteHandler where
  | healthHandler
  | schemasListHandler
  | fnHandler (id : Nat)
  | fnSchemaHandler (name : String)
deriving DecidableEq, Repr

/-- An `http.ServeMux` as its registered (pattern, handler) pairs. -/
abbrev Mux := List (String × RouteHandler)

/-- Whether a pattern is already registered on the mux. -/
def muxContains (m : Mux) (pattern : String) : Bool :=
  m.any (fun p => p.1 = pattern)

/-- Exact-path route lookup (all patterns in this program are exact paths). -/
def muxLookup (m : Mux) (path : String) : Option RouteHandler :=
  (m.find? (fun p => p.1 = path)).map (fun p => p.2)

/-- `http.ServeMux.Handle`: registering a pattern that is already registered
panics (`none` is the panic). -/
def muxHandle (m : Mux) (pattern : String) (h : RouteHandler) : Option Mux :=
  if muxContains m pattern then none
  else some (m ++ [(pattern, h)])

/-- Go map assignment `m[k] = v` on an association-list map. -/
def mapUpdate (m : List (String × Schema)) (k : String) (v : Schema) :
    List (String × Schema) :=
  if m.any (fun p => p.1 = k) then
    m.map (fun p => if p.1 = k then (k, v) else p)
  else m ++ [(k, v)]

/-- Go map lookup `m[k]`. -/
def mapLookup (m : List (String × Schema)) (k : String) : Option Schema :=
  (m.find? (fun p => p.1 = k)).map (fun p => p.2)

/-- `Plugin` from part_003: function table plus mux. `panicked` records that a
Go `panic` escaped (the program aborted); it is absorbing. -/
structure Plugin where
  functions : List (String × Schema)
  mux : Mux
  panicked : Bool
deriving DecidableEq, Repr

/-- `NewPlugin`: empty function table; the mux starts with the liveness route
and the schema-listing route. -/
def NewPlugin : Plugin :=
  { functions := []
    mux := [(healthPath, RouteHandler.healthHandler),
            (schemasPath, RouteHandler.schemasListHandler)]
    panicked := false }

/-- Characters admitted by `validateFunctionName`. -/
def allowedChar (r : Char) : Bool :=
  r = '-' || r = '_' || r = '.' ||
    ('a' ≤ r && r ≤ 'z') || ('A' ≤ r && r ≤ 'Z') || ('0' ≤ r && r ≤ '9')

/-- `validateFunctionName` from part_003. `some msg` is the returned error,
`none` means the name is valid. Strings are modelled as their character
lists; every admitted character is ASCII, so byte length and character
length agree on every name that can pass. -/
def validateFunctionName (function : String) : Option String :=
  if function = "" then some "function name cannot be empty"
  else if function.data.head? = some '/' then
    some "function name cannot start with slash"
  else if function.length > 128 then
    some "function name cannot be longer than 128 characters"
  else
    match function.data.find? (fun r => !(allowedChar r)) with
    | some _ => some "function name contains invalid character"
    | none => none

/-- `Plugin.AddFunction` from part_003: validate the name (on failure log and
return, leaving the plugin unchanged); store the schema in the function
table; install the invocation route and the per-function schema route with
`ServeMux.Handle`, which panics on a duplicate pattern. -/
def Plugin.AddFunction (l : Plugin) (functionName : String) (handler : Handler) :
    Plugin :=
  if l.panicked then l
  else
    match validateFunctionName functionName with
    | some _ => l
    | none =>
      let l1 : Plugin :=
        { l with functions := mapUpdate l.functions functionName handler.Schema }
      match muxHandle l1.mux (basePath ++ functionName)
          (RouteHandler.fnHandler handler.HTTPHandler) with
      | none => { l1 with panicked := true }
      | some m1 =>
        match muxHandle m1 (basePath ++ functionName ++ schemasPath)
            (RouteHandler.fnSchemaHandler functionName) with
        | none => { l1 with mux := m1, panicked := true }
        | some m2 => { l1 with mux := m2 }

/-- Externally visible actions taken by `Plugin.Start`. -/
inductive StartEvent where
  | stdoutWrite (s : String)
  | stdoutSync
  | serveHTTP (m : Mux)
deriving DecidableEq, Repr

/-- Environment of one `Plugin.Start` run: what the OS listener and the HTTP
server would do. -/
structure StartEnv where
  bindResult : Except String Nat
  splitOk : Bool
  serveErr : Option String
deriving Repr

/-- `Plugin.Start` from part_003: bind `127.0.0.1:0` (bind failure is
returned with nothing written); split the bound address into host and port;
print the port line to stdout and sync it; then serve on the listener and
return its terminal error. The first component is the trace of externally
visible actions in order. -/
def Plugin.Start (l : Plugin) (env : StartEnv) :
    List StartEvent × Option String :=
  match env.bindResult with
  | Except.error e => ([], some e)
  | Except.ok port =>
    if env.splitOk = false then ([], some "failed to parse port")
    else
      let events := [StartEvent.stdoutWrite (toString port ++ "\n"),
                     StartEvent.stdoutSync]
      match env.serveErr with
      | some e => (events ++ [StartEvent.serveHTTP l.mux], some e)
      | none => (events ++ [StartEvent.serveHTTP l.mux], none)

/-- `Connection` from part_000: base URL and the per-call timeout. -/
structure Connection where
  FunctionExecutionTimeout : Millis
  BaseURL : String
deriving DecidableEq, Repr

/-- The `os.Process` inside a started `exec.Cmd`. `killResult` is the error
that `Process.Kill()` returns when invoked (`none` = kill succeeded). -/
structure GoProcess where
  killResult : Option String
deriving DecidableEq, Repr

/-- An `exec.Cmd` that has been started. -/
structure Cmd where
  process : Option GoProcess
deriving DecidableEq, Repr

/-- `Client` from part_000. Go nil-able pointer and channel fields become
`Option`; `httpClient` keeps only its timeout. -/
structure Client where
  path : String
  functionExecutionTimeout : Millis
  healthCheckTimeout : Millis
  healthCheckInterval : Millis
  heartbeatInterval : Millis
  heartbeatChan : Option Unit
  httpClient : Option Millis
  connection : Option Connection
  commandContext : Option Cmd
  cancel : Option Unit
deriving DecidableEq, Repr

/-- `New` from part_000 with no options applied. -/
def New (path : String) : Client :=
  { path := path
    functionExecutionTimeout := DefaultFunctionExecutionTimeout
    healthCheckTimeout := DefaultHealthCheckTimeout
    healthCheckInterval := DefaultHealthCheckInterval
    heartbeatInterval := 0
    heartbeatChan := none
    httpClient := none
    connection := none
    commandContext := none
    cancel := none }

/-- `WithHeartbeatInterval` option. -/
def WithHeartbeatInterval (interval : Millis) (p : Client) : Client :=
  { p with heartbeatInterval := interval }

/-- The error taxonomy of the package: plain `errors.New` values,
`PluginNotFoundError` (wrapping the `os.Stat` error, which is nil in the
directory case), `PluginExecutionError`, and `FunctionExecutionError`
carrying the function name. -/
inductive PluginError where
  | plain (msg : String)
  | notFound (wrapped : Option String)
  | execution (msg : String)
  | functionExecution (function : String) (msg : String)
deriving DecidableEq, Repr

/-- Result of one `Client.Close` call: the state after the deferred cleanup,
the returned error, and the externally visible effects — whether the channel
was closed, whether the process context was cancelled, and whether
`Process.Kill` was invoked. -/
structure CloseResult where
  client : Client
  err : Option String
  chanClosed : Bool
  cancelled : Bool
  killCalled : Bool
deriving DecidableEq, Repr

/-- `Client.Close` from part_000. The body cancels the context if present and
kills the process if the command and its process handle exist, producing the
return value; the deferred block then nils out `commandContext`, `cancel`,
`heartbeatChan` (closing it first when non-nil), `connection` and
`httpClient`. -/
def Client.Close (c : Client) : CloseResult :=
  let cancelled := c.cancel.isSome
  let killCalled :=
    match c.commandContext with
    | some cmd => cmd.process.isSome
    | none => false
  let ret : Option String :=
    match c.commandContext with
    | some cmd =>
      match cmd.process with
      | some p => p.killResult
      | none => none
    | none => none
  { client :=
      { c with commandContext := none, cancel := none, heartbeatChan := none,
               connection := none, httpClient := none }
    err := ret
    chanClosed := c.heartbeatChan.isSome
    cancelled := cancelled
    killCalled := killCalled }

/-- `Client.Connection` accessor from part_000: returns the connection
pointer, nil when not connected. -/
def Client.Connection (c : Client) : Option Connection :=
  c.connection

/-- Go `strings.TrimSpace` over the character list. -/
def isSpaceChar (c : Char) : Bool :=
  c = ' ' || c = '\t' || c = '\n' || c = '\r' || c = '\x0b' || c = '\x0c'

def trimSpace (s : String) : String :=
  String.mk (((s.data.dropWhile isSpaceChar).reverse.dropWhile isSpaceChar).reverse)

/-- Go `strconv.Atoi`: an optional sign followed by at least one ASCII digit,
rejecting anything else and values outside the 64-bit signed range. -/
def goAtoi (s : String) : Option Int :=
  match s.data with
  | [] => none
  | c :: rest =>
    let signDigits : Bool × List Char :=
      if c = '-' then (true, rest)
      else if c = '+' then (false, rest)
      else (false, c :: rest)
    match signDigits with
    | (neg, digits) =>
      if digits = [] then none
      else if digits.all (fun d => '0' ≤ d && d ≤ '9') then
        let n : Nat := digits.foldl (fun acc d => acc * 10 + (d.toNat - 48)) 0
        let v : Int := if neg then -(n : Int) else (n : Int)
        if v < -9223372036854775808 ∨ 9223372036854775807 < v then none
        else some v
      else none

/-- Environment of one `Client.Open` run: what the OS and the plugin process
would do. `statResult = none` models an `os.Stat` error; `readLine = none`
models a failure reading the first stdout line; `healthOk` says whether the
startup health polling would succeed. -/
structure FileInfo where
  isDir : Bool
  mode : Nat
deriving DecidableEq, Repr

structure OpenEnv where
  statResult : Option FileInfo
  startOk : Bool
  killResult : Option String
  readLine : Option String
  healthOk : Bool
deriving DecidableEq, Repr

/-- A startup health probe can only succeed when the announced port parses as
a positive number: an HTTP GET to `http://127.0.0.1:p` with a zero or
negative `p` can never return a response. -/
def OpenEnv.realistic (env : OpenEnv) : Prop :=
  env.healthOk = true →
    ∀ line, env.readLine = some line →
      ∃ n : Int, goAtoi (trimSpace line) = some n ∧ 0 < n

/-- Result of one `Client.Open` run: final state, result, whether the plugin
process was started, and whether it was killed again during this call. -/
structure OpenResult where
  client : Client
  res : Except PluginError Unit
  spawned : Bool
  processKilled : Bool
deriving Repr

/-- `Client.Open` from part_000, step for step: refuse when a command context
already exists; `os.Stat` error or directory gives `PluginNotFoundError`;
a non-executable mode gives `PluginExecutionError`; then install the cancel
function, start the process (on failure `Close` and return), read the first
stdout line (on failure `Close` and return), `Atoi` the trimmed line (on
failure `Close` and return), install the `Connection` (only `BaseURL` is set,
the timeout field keeps its zero value) and the HTTP client, poll health (on
failure `Close` and return), and finally create the heartbeat channel when a
heartbeat interval is configured. -/
def Client.Open (c : Client) (env : OpenEnv) : OpenResult :=
  if c.commandContext.isSome then
    { client := c, res := Except.error (PluginError.plain "plugin is already running")
      spawned := false, processKilled := false }
  else
    match env.statResult with
    | none =>
      { client := c, res := Except.error (PluginError.notFound (some "stat error"))
        spawned := false, processKilled := false }
    | some fileInfo =>
      if fileInfo.isDir then
        { client := c, res := Except.error (PluginError.notFound none)
          spawned := false, processKilled := false }
      else if fileInfo.mode &&& 0o111 = 0 then
        { client := c
          res := Except.error (PluginError.execution "plugin must be an executable")
          spawned := false, processKilled := false }
      else
        let c1 := { c with cancel := some () }
        if env.startOk = false then
          let cr := Client.Close c1
          { client := cr.client
            res := Except.error (PluginError.execution "failed to start process")
            spawned := false, processKilled := false }
        else
          let c2 := { c1 with
            commandContext := some { process := some { killResult := env.killResult } } }
          match env.readLine with
          | none =>
            let cr := Client.Close c2
            { client := cr.client
              res := Except.error (PluginError.execution "failed to read stdout line")
              spawned := true, processKilled := cr.cancelled || cr.killCalled }
          | some line =>
            let pluginPort := trimSpace line
            match goAtoi pluginPort with
            | none =>
              let cr := Client.Close c2
              { client := cr.client
                res := Except.error (PluginError.execution
                  ("invalid port received from plugin: " ++ pluginPort))
                spawned := true, processKilled := cr.cancelled || cr.killCalled }
            | some _ =>
              let c3 := { c2 with
                connection := some { FunctionExecutionTimeout := 0
                                     BaseURL := defaultSchema ++ defaultHost ++ ":" ++ pluginPort } }
              let c4 := { c3 with httpClient := some c3.functionExecutionTimeout }
              if env.healthOk = false then
                let cr := Client.Close c4
                { client := cr.client
                  res := Except.error (PluginError.execution
                    "timeout waiting for plugin to become healthy")
                  spawned := true, processKilled := cr.cancelled || cr.killCalled }
              else
                let c5 :=
                  if 0 < c4.heartbeatInterval then { c4 with heartbeatChan := some () }
                  else c4
                { client := c5, res := Except.ok ()
                  spawned := true, processKilled := false }

/-- The loop body of `Client.waitForHealth` from part_000, with time made
explicit. `probe t` says whether a GET to the health path issued at time `t`
returns without transport error and with status 200. Each failed iteration
sleeps `interval`; the loop gives up as soon as the current time has passed
`deadline`. `fuel` bounds the recursion; `none` means the fuel ran out (shown
below never to happen with a positive interval). -/
def waitLoop (probe : Nat → Bool) (deadline interval : Nat) :
    Nat → Nat → Option (Except String Unit)
  | 0, _ => none
  | fuel + 1, now =>
    if deadline < now then
      some (Except.error "timeout waiting for plugin to become healthy")
    else if probe now then some (Except.ok ())
    else waitLoop probe deadline interval fuel (now + interval)

/-- `Client.waitForHealth`: the deadline is `now + healthCheckTimeout`, with
the clock started at 0. -/
def waitForHealth (probe : Nat → Bool) (healthCheckTimeout interval : Nat) :
    Option (Except String Unit) :=
  waitLoop probe healthCheckTimeout interval (healthCheckTimeout + 2) 0

/-- Environment of one `Client.Schemas` call: the HTTP response to the GET
(`none` = transport error) and the decoded body (`none` = decode error). -/
structure HttpResponse where
  statusCode : Nat
  body : String
deriving DecidableEq, Repr

structure SchemasEnv where
  getResult : Option HttpResponse
  decoded : Option (List (String × Schema))
deriving DecidableEq, Repr

/-- `Client.Schemas` from part_000: with no connection, return the plain
error `plugin is not connected` before doing anything else; otherwise GET
`BaseURL + /_schemas` and wrap transport errors, non-200 statuses and decode
errors in `PluginExecutionError`. The first component is the list of URLs an
HTTP request was issued to. -/
def Client.Schemas (c : Client) (env : SchemasEnv) :
    List String × Except PluginError (List (String × Schema)) :=
  match c.connection with
  | none => ([], Except.error (PluginError.plain "plugin is not connected"))
  | some conn =>
    let url := conn.BaseURL ++ schemasPath
    match env.getResult with
    | none => ([url], Except.error (PluginError.execution "transport error"))
    | some resp =>
      if resp.statusCode ≠ 200 then
        ([url], Except.error (PluginError.execution
          ("plugin returned status " ++ toString resp.statusCode)))
      else
        match env.decoded with
        | none => ([url], Except.error (PluginError.execution "decode error"))
        | some schemas => ([url], Except.ok schemas)

/-- A Go runtime panic reached from a modelled operation. -/
inductive GoPanic where
  | nilPointerDereference
deriving DecidableEq, Repr

/-- `Function[T, R]` from function.go with its closure state: the function
name, the connection it was built from, and its own HTTP client's timeout. -/
structure FunctionStub where
  name : String
  clientConnection : Connection
  httpClient : Millis
deriving DecidableEq, Repr

/-- `NewFunction` from function.go. The constructor immediately reads
`clientConnection.FunctionExecutionTimeout` to build the stub's HTTP client,
so a nil `clientConnection` (the `Connection()` accessor's result when no
connection is installed) is a nil-pointer dereference: the construction
panics instead of returning. -/
def NewFunction (name : String) (clientConnection : Option Connection) :
    Except GoPanic FunctionStub :=
  match clientConnection with
  | none => Except.error GoPanic.nilPointerDereference
  | some conn =>
    Except.ok { name := name, clientConnection := conn
                httpClient := conn.FunctionExecutionTimeout }

/-- Environment of one `Function.Call`: the marshal step, the request
construction, the transport result and the body read. Unmarshalling of the
response body is the supplied `unmarshal`. -/
structure CallEnv where
  marshalOk : Bool
  newRequestOk : Bool
  doResult : Option HttpResponse
  readOk : Bool
deriving DecidableEq, Repr

/-- `Function.Call` (via the closure built in `NewFunction`): every failure —
marshal, request construction, transport, body read, non-200 status, or
unmarshal — returns a `FunctionExecutionError` carrying the function name;
a 200 response with an unmarshallable body is the only success. -/
def FunctionStub.Call (f : FunctionStub) (env : CallEnv)
    (unmarshal : String → Option String) : Except PluginError String :=
  if env.marshalOk = false then
    Except.error (PluginError.functionExecution f.name "marshal error")
  else if env.newRequestOk = false then
    Except.error (PluginError.functionExecution f.name "request error")
  else
    match env.doResult with
    | none => Except.error (PluginError.functionExecution f.name "transport error")
    | some resp =>
      if env.readOk = false then
        Except.error (PluginError.functionExecution f.name "read error")
      else if resp.statusCode ≠ 200 then
        Except.error (PluginError.functionExecution f.name
          ("plugin returned status " ++ toString resp.statusCode ++ ": " ++ resp.body))
      else
        match unmarshal resp.body with
        | none => Except.error (PluginError.functionExecution f.name "unmarshal error")
        | some out => Except.ok out

/-- A request body for the function endpoint. `parsed = none` models bytes
that are not a JSON object; otherwise the object's (field, value) pairs. -/
structure Body where
  parsed : Option (List (String × String))
deriving DecidableEq, Repr

/-- The result of `Validator.Validate`: the per-field error map. -/
structure ValidationResult where
  errors : List (String × String)
deriving DecidableEq, Repr

def ValidationResult.IsValid (r : ValidationResult) : Bool :=
  r.errors.isEmpty

/-- An inbound HTTP request as the handler observes it: the method, whether
reading the body succeeds, and the body. -/
structure Request where
  method : String
  readOk : Bool
  body : Body
deriving DecidableEq, Repr

structure Response where
  status : Nat
  body : String
deriving DecidableEq, Repr

/-- `json.Decoder` with `DisallowUnknownFields` over the input type given by
its field names: non-object bytes fail, an object containing a field absent
from the type fails, everything else decodes to the field list itself. -/
def decodeDisallowUnknown (typeFields : List String) (b : Body) :
    Except String (List (String × String)) :=
  match b.parsed with
  | none => Except.error "decode error"
  | some fs =>
    match fs.find? (fun f => !(typeFields.contains f.1)) with
    | some f => Except.error ("json: unknown field " ++ f.1)
    | none => Except.ok fs

/-- `decodeInput` from handler.go: read the whole body (a read error fails),
then — when a validator is present — validate the raw bytes before any
structural decoding, aggregating all per-field errors into one message; only
then decode with unknown-field rejection. -/
def decodeInput (typeFields : List String)
    (validator : Option (Body → ValidationResult)) (r : Request) :
    Except String (List (String × String)) :=
  if r.readOk = false then Except.error "read error"
  else
    match validator with
    | some v =>
      let result := v r.body
      if result.IsValid = false then
        Except.error ("invalid input: " ++ String.intercalate ", "
          (result.errors.map (fun fe => fe.1 ++ ": " ++ fe.2)))
      else decodeDisallowUnknown typeFields r.body
    | none => decodeDisallowUnknown typeFields r.body

/-- What one request to the endpoint produced: the response written and
whether the wrapped function was invoked. -/
structure HandlerOutcome where
  response : Response
  invoked : Bool
deriving DecidableEq, Repr

/-- The HTTP handler closure built by `NewFunctionHandler` in handler.go:
reject non-POST with 405; decode failures (read, validation, unknown field,
structural decode) with 400 and the error text; a function error with 500 and
the error text; encode a success as 200. `fn` is the wrapped function over
the decoded input, `enc` the JSON encoding of its output. -/
def NewFunctionHandler {Out : Type} (typeFields : List String)
    (validator : Option (Body → ValidationResult))
    (fn : List (String × String) → Except String Out)
    (enc : Out → String) (r : Request) : HandlerOutcome :=
  if r.method ≠ "POST" then
    { response := { status := 405, body := "method not allowed" }, invoked := false }
  else
    match decodeInput typeFields validator r with
    | Except.error e =>
      { response := { status := 400, body := e }, invoked := false }
    | Except.ok req =>
      match fn req with
      | Except.error e =>
        { response := { status := 500, body := e }, invoked := true }
      | Except.ok out =>
        { response := { status := 200, body := enc out }, invoked := true }

/-! ### Helper lemmas -/

theorem mapLookup_mapUpdate_of_any (m : List (String × Schema)) (k : String) (v : Schema)
    (h : m.any (fun p => p.1 = k) = true) :
    ((m.map (fun p => if p.1 = k then (k, v) else p)).find? (fun p => p.1 = k)).map
      (fun p => p.2) = some v := by
  induction m with
  | nil => simp at h
  | cons q t ih =>
    by_cases hq : q.1 = k
    · simp [List.find?, hq]
    · simp only [List.any_cons, decide_eq_true_eq, hq, false_or, Bool.false_or] at h
      simp only [List.map_cons, if_neg hq, List.find?]
      rw [show (decide (q.1 = k)) = false from by simp [hq]]
      exact ih h

theorem find?_append_of_none (m : List (String × Schema)) (k : String) (v : Schema)
    (h : m.any (fun p => p.1 = k) = false) :
    ((m ++ [(k, v)]).find? (fun p => p.1 = k)).map (fun p => p.2) = some v := by
  induction m with
  | nil => simp [List.find?]
  | cons q t ih =>
    simp only [List.any_cons, Bool.or_eq_false_iff, decide_eq_false_iff_not] at h
    simp only [List.cons_append, List.find?]
    rw [show (decide (q.1 = k)) = false from by simp [h.1]]
    exact ih h.2

/-- After a Go map assignment the key maps to the assigned value. -/
theorem mapLookup_mapUpdate (m : List (String × Schema)) (k : String) (v : Schema) :
    mapLookup (mapUpdate m k v) k = some v := by
  unfold mapLookup mapUpdate
  by_cases h : m.any (fun p => p.1 = k) = true
  · rw [if_pos h]; exact mapLookup_mapUpdate_of_any m k v h
  · rw [if_neg h]
    exact find?_append_of_none m k v (by rw [Bool.not_eq_true] at h; exact h)

/-- A pattern absent from the front of the mux is found at its first
occurrence after it. -/
theorem muxLookup_append_cons (m rest : Mux) (pat : String) (h : RouteHandler)
    (hc : muxContains m pat = false) :
    muxLookup (m ++ (pat, h) :: rest) pat = some h := by
  induction m with
  | nil => simp [muxLookup, List.find?]
  | cons q t ih =>
    simp only [muxContains, List.any_cons, Bool.or_eq_false_iff,
      decide_eq_false_iff_not] at hc
    simp only [List.cons_append, muxLookup, List.find?] at ih ⊢
    rw [show (decide (q.1 = pat)) = false from by simp [hc.1]]
    exact ih hc.2

theorem muxContains_append (m l : Mux) (pat : String) :
    muxContains (m ++ l) pat = (muxContains m pat || muxContains l pat) := by
  simp [muxContains, List.any_append]

/-- The invocation path of a function is a strict prefix of its schema path,
so the two routes installed by `AddFunction` never collide. -/
theorem invokePath_ne_schemaPath (nm : String) :
    basePath ++ nm ≠ basePath ++ nm ++ schemasPath := by
  intro h
  have hlen := congrArg String.length h
  simp [String.length_append] at hlen
  exact absurd hlen (by decide)

/-! ### C6 — function-name validation -/

/-- C6: `AddFunction` registers a function name if and only if the name is
non-empty, at most 128 characters, does not begin with `/`, and consists
only of letters, digits, `-`, `_` and `.`; for a name violating these rules
the plugin is returned unchanged (registration silently skipped), while a
valid name ends up in the function table mapped to the handler's schema. -/
theorem addFunction_validates_names (s : String) (l : Plugin) (h : Handler)
    (hp : l.panicked = false) :
    (validateFunctionName s = none ↔
      (s ≠ "" ∧ s.length ≤ 128 ∧ s.data.head? ≠ some '/' ∧ s.data.all allowedChar = true))
    ∧ (validateFunctionName s = none →
        mapLookup (l.AddFunction s h).functions s = some h.Schema)
    ∧ (validateFunctionName s ≠ none → l.AddFunction s h = l) := by
  refine ⟨?_, ?_, ?_⟩
  · unfold validateFunctionName
    by_cases h1 : s = ""
    · rw [if_pos h1]
      constructor
      · exact fun hc => Option.noConfusion hc
      · rintro ⟨hne, -⟩; exact absurd h1 hne
    · rw [if_neg h1]
      by_cases h2 : s.data.head? = some '/'
      · rw [if_pos h2]
        constructor
        · exact fun hc => Option.noConfusion hc
        · rintro ⟨-, -, hne, -⟩; exact absurd h2 hne
      · rw [if_neg h2]
        by_cases h3 : s.length > 128
        · rw [if_pos h3]
          constructor
          · exact fun hc => Option.noConfusion hc
          · rintro ⟨-, hlen, -, -⟩; omega
        · rw [if_neg h3]
          cases hf : s.data.find? (fun r => !(allowedChar r)) with
          | some r =>
            have hr := List.find?_some hf
            have hmem := List.mem_of_find?_eq_some hf
            simp only [Bool.not_eq_true'] at hr
            constructor
            · exact fun hc => Option.noConfusion hc
            · rintro ⟨-, -, -, hall⟩
              rw [List.all_eq_true] at hall
              exact absurd (hall r hmem) (by simp [hr])
          | none =>
            rw [List.find?_eq_none] at hf
            constructor
            · intro _
              refine ⟨h1, by omega, h2, ?_⟩
              rw [List.all_eq_true]
              intro r hrm
              simpa using hf r hrm
            · intro _; rfl
  · intro hv
    unfold Plugin.AddFunction
    rw [if_neg (by simp [hp])]
    simp only [hv]
    split
    · exact mapLookup_mapUpdate l.functions s h.Schema
    · split
      · exact mapLookup_mapUpdate l.functions s h.Schema
      · exact mapLookup_mapUpdate l.functions s h.Schema
  · intro hv
    obtain ⟨e, he⟩ : ∃ e, validateFunctionName s = some e := by
      cases hval : validateFunctionName s with
      | none => exact absurd hval hv
      | some e => exact ⟨e, rfl⟩
    unfold Plugin.AddFunction
    rw [if_neg (by simp [hp])]
    simp only [he]

/-- Concrete handlers used to instantiate theorems, mirroring the `exec`
function of the example plugin registered twice with distinct closures. -/
def hExec : Handler := { HTTPHandler := 1, Schema := { input := 1, output := 1 } }

def hExec2 : Handler := { HTTPHandler := 2, Schema := { input := 2, output := 2 } }

/-- C6 witness: the valid name `exec` is registered and maps to the
handler's schema. -/
theorem addFunction_validates_names_witness :
    mapLookup (NewPlugin.AddFunction "exec" hExec).functions "exec" = some hExec.Schema :=
  (addFunction_validates_names "exec" NewPlugin hExec rfl).2.1 (by decide)

/-! ### C1 — duplicate registration -/

/-- C1 counterexample: registering `exec` twice overwrites the function-table
entry, but the second `ServeMux.Handle` call panics on the duplicate pattern
(the program aborts) and the invocation route is still the first handler —
the second registration does not complete without aborting, and the route is
not last-write-wins. -/
theorem addFunction_duplicate_panics :
    ((NewPlugin.AddFunction "exec" hExec).AddFunction "exec" hExec2).panicked = true
    ∧ mapLookup ((NewPlugin.AddFunction "exec" hExec).AddFunction "exec" hExec2).functions
        "exec" = some hExec2.Schema
    ∧ muxLookup ((NewPlugin.AddFunction "exec" hExec).AddFunction "exec" hExec2).mux
        "/exec" = some (RouteHandler.fnHandler hExec.HTTPHandler) := by
  decide

/-- C1 amended: when a valid name whose routes are not yet on the mux is
registered twice, the second call overwrites the function-table entry with
the second handler's schema, but then panics installing the duplicate route
(Go's `ServeMux.Handle` rejects an already-registered pattern), so the
program aborts and the invocation path keeps the first handler. -/
theorem addFunction_duplicate_overwrites_then_panics
    (p : Plugin) (nm : String) (g1 g2 : Handler)
    (hp : p.panicked = false) (hv : validateFunctionName nm = none)
    (h1 : muxContains p.mux (basePath ++ nm) = false)
    (h2 : muxContains p.mux (basePath ++ nm ++ schemasPath) = false) :
    (p.AddFunction nm g1).panicked = false
    ∧ ((p.AddFunction nm g1).AddFunction nm g2).panicked = true
    ∧ mapLookup ((p.AddFunction nm g1).AddFunction nm g2).functions nm = some g2.Schema
    ∧ muxLookup ((p.AddFunction nm g1).AddFunction nm g2).mux (basePath ++ nm)
        = some (RouteHandler.fnHandler g1.HTTPHandler) := by
  have hne : basePath ++ nm ≠ basePath ++ nm ++ schemasPath := invokePath_ne_schemaPath nm
  have hstep1 : p.AddFunction nm g1 =
      { functions := mapUpdate p.functions nm g1.Schema
        mux := p.mux ++ [(basePath ++ nm, RouteHandler.fnHandler g1.HTTPHandler),
                         (basePath ++ nm ++ schemasPath, RouteHandler.fnSchemaHandler nm)]
        panicked := p.panicked } := by
    unfold Plugin.AddFunction
    rw [if_neg (by simp [hp])]
    simp only [hv]
    unfold muxHandle
    rw [if_neg (by simp [h1])]
    simp only []
    rw [if_neg (by
      simp only [muxContains_append, h2, Bool.false_or]
      simp [muxContains, hne])]
    simp [List.append_assoc]
  have hstep2 : (p.AddFunction nm g1).AddFunction nm g2 =
      { functions := mapUpdate (mapUpdate p.functions nm g1.Schema) nm g2.Schema
        mux := p.mux ++ [(basePath ++ nm, RouteHandler.fnHandler g1.HTTPHandler),
                         (basePath ++ nm ++ schemasPath, RouteHandler.fnSchemaHandler nm)]
        panicked := true } := by
    rw [hstep1]
    unfold Plugin.AddFunction
    rw [if_neg (by simp [hp])]
    simp only [hv]
    unfold muxHandle
    rw [if_pos (by simp [muxContains_append, muxContains])]
  refine ⟨by rw [hstep1]; exact hp, by rw [hstep2], ?_, ?_⟩
  · rw [hstep2]
    exact mapLookup_mapUpdate _ nm g2.Schema
  · rw [hstep2]
    exact muxLookup_append_cons p.mux _ (basePath ++ nm)
      (RouteHandler.fnHandler g1.HTTPHandler) h1

/-- C1 witness for the amended statement, at the concrete duplicate
registration of `exec`. -/
theorem addFunction_duplicate_overwrites_then_panics_witness :
    mapLookup ((NewPlugin.AddFunction "exec" hExec).AddFunction "exec" hExec2).functions
      "exec" = some hExec2.Schema :=
  (addFunction_duplicate_overwrites_then_panics NewPlugin "exec" hExec hExec2
    rfl (by decide) (by decide) (by decide)).2.2.1

/-! ### C9 — Start handshake ordering -/

/-- C9: if the ephemeral loopback bind fails, `Start` returns that error and
writes nothing to stdout; otherwise the trace is exactly the newline-
terminated decimal port line, the stdout flush, and only then the HTTP serve
loop, and `Start` returns the serve loop's terminal error. -/
theorem start_writes_port_before_serving (l : Plugin) (env : StartEnv) :
    (∀ e, env.bindResult = Except.error e → l.Start env = ([], some e))
    ∧ (∀ port, env.bindResult = Except.ok port → env.splitOk = true →
        l.Start env =
          ([StartEvent.stdoutWrite (toString port ++ "\n"), StartEvent.stdoutSync,
            StartEvent.serveHTTP l.mux], env.serveErr)) := by
  constructor
  · intro e he
    unfold Plugin.Start
    rw [he]
  · intro port hp hs
    unfold Plugin.Start
    rw [hp]
    simp only [hs]
    cases hse : env.serveErr with
    | none => simp
    | some e => simp

/-- C9 witness: a successful bind of port 8080 with a closed-server exit. -/
theorem start_writes_port_before_serving_witness :
    (NewPlugin.Start { bindResult := Except.ok 8080, splitOk := true
                       serveErr := some "http: Server closed" }) =
      ([StartEvent.stdoutWrite "8080\n", StartEvent.stdoutSync,
        StartEvent.serveHTTP NewPlugin.mux], some "http: Server closed") :=
  (start_writes_port_before_serving NewPlugin
    { bindResult := Except.ok 8080, splitOk := true
      serveErr := some "http: Server closed" }).2 8080 rfl rfl

/-! ### C10 — Schemas without a connection -/

/-- C10: with no installed connection, `Schemas` returns the plain error
`plugin is not connected` while issuing no HTTP request, and that error is
not a `PluginExecutionError`. -/
theorem schemas_requires_connection (c : Client) (env : SchemasEnv)
    (hc : c.connection = none) :
    c.Schemas env = ([], Except.error (PluginError.plain "plugin is not connected"))
    ∧ (∀ msg, (c.Schemas env).2 ≠ Except.error (PluginError.execution msg)) := by
  have h : c.Schemas env = ([], Except.error (PluginError.plain "plugin is not connected")) := by
    unfold Client.Schemas
    rw [hc]
  refine ⟨h, ?_⟩
  intro msg hcontra
  rw [h] at hcontra
  simp at hcontra

/-- C10 witness: a freshly created client is not connected. -/
theorem schemas_requires_connection_witness :
    (New "./plugin/plugin").Schemas { getResult := none, decoded := none } =
      ([], Except.error (PluginError.plain "plugin is not connected")) :=
  (schemas_requires_connection (New "./plugin/plugin")
    { getResult := none, decoded := none } rfl).1

/-! ### C7 — Close idempotency -/

/-- C7: every `Close` clears the connection, the command context, the HTTP
client, the cancel function and the heartbeat channel; a second `Close`
returns no error and does not close the channel again (so the channel is
closed at most once); `Close` on a client with no command context (never
opened, or already closed) returns no error; and when a command context with
a live process exists, the result is exactly what `Process.Kill` returns. -/
theorem close_idempotent_and_clears (c : Client) :
    ((c.Close.client).connection = none ∧ (c.Close.client).commandContext = none
      ∧ (c.Close.client).httpClient = none ∧ (c.Close.client).cancel = none
      ∧ (c.Close.client).heartbeatChan = none)
    ∧ ((c.Close.client).Close.err = none ∧ (c.Close.client).Close.chanClosed = false)
    ∧ (c.commandContext = none → c.Close.err = none)
    ∧ (∀ cmd p, c.commandContext = some cmd → cmd.process = some p →
        c.Close.err = p.killResult)
    ∧ (∀ cmd, c.commandContext = some cmd → cmd.process = none → c.Close.err = none) := by
  refine ⟨⟨rfl, rfl, rfl, rfl, rfl⟩, ⟨rfl, rfl⟩, ?_, ?_, ?_⟩
  · intro hcc
    simp only [Client.Close, hcc]
  · intro cmd p hcc hproc
    simp only [Client.Close, hcc, hproc]
  · intro cmd hcc hproc
    simp only [Client.Close, hcc, hproc]

/-- C7 witness: closing a never-opened client returns no error, and closing
it again still returns no error without touching the channel. -/
theorem close_idempotent_and_clears_witness :
    (New "p").Close.err = none
    ∧ ((New "p").Close.client).Close.err = none
    ∧ ((New "p").Close.client).Close.chanClosed = false :=
  ⟨(close_idempotent_and_clears (New "p")).2.2.1 rfl,
   (close_idempotent_and_clears (New "p")).2.1.1,
   (close_idempotent_and_clears (New "p")).2.1.2⟩

/-! ### C2 — calling before Open / after Close -/

/-- C2 counterexample: on a client with no installed connection the
`Connection` accessor returns nil, and `NewFunction` built from that result
panics with a nil-pointer dereference (it reads the connection's timeout
field), instead of failing cleanly. -/
theorem newFunction_nil_connection_panics :
    NewFunction "hello" ((New "./plugin/plugin").Connection) =
      Except.error GoPanic.nilPointerDereference := rfl

/-- C2 amended: a stub that was already constructed fails cleanly — `Call`
returns a `FunctionExecutionError` naming the function on a transport error
(the situation after `Close`, or before a successful `Open`), with no panic
and no unbounded blocking; but constructing a stub from the `Connection`
accessor's result while no connection is installed dereferences a nil
pointer and panics. -/
theorem call_fails_cleanly (c : Client) (nm : String) (env : CallEnv)
    (um : String → Option String) (hc : c.connection = none) :
    NewFunction nm c.Connection = Except.error GoPanic.nilPointerDereference
    ∧ (∀ f : FunctionStub, env.marshalOk = true → env.newRequestOk = true →
        env.doResult = none →
        f.Call env um = Except.error (PluginError.functionExecution f.name
          "transport error")) := by
  constructor
  · unfold NewFunction Client.Connection
    rw [hc]
  · intro f hm hr hd
    simp only [FunctionStub.Call, hm, hr, hd]
    rfl

/-- C2 witness for the amended statement: the nil construction panics and a
concrete stub's `Call` fails cleanly on a transport error. -/
theorem call_fails_cleanly_witness :
    NewFunction "hello" ((New "./plugin/plugin").Connection) =
        Except.error GoPanic.nilPointerDereference
    ∧ FunctionStub.Call
        { name := "hello", clientConnection := { FunctionExecutionTimeout := 120000
                                                 BaseURL := "http://127.0.0.1:8080" }
          httpClient := 120000 }
        { marshalOk := true, newRequestOk := true, doResult := none, readOk := true }
        (fun s => some s) =
      Except.error (PluginError.functionExecution "hello" "transport error") :=
  ⟨(call_fails_cleanly (New "./plugin/plugin") "hello"
      { marshalOk := true, newRequestOk := true, doResult := none, readOk := true }
      (fun s => some s) rfl).1,
   (call_fails_cleanly (New "./plugin/plugin") "hello"
      { marshalOk := true, newRequestOk := true, doResult := none, readOk := true }
      (fun s => some s) rfl).2
     { name := "hello", clientConnection := { FunctionExecutionTimeout := 120000
                                              BaseURL := "http://127.0.0.1:8080" }
       httpClient := 120000 } rfl rfl rfl⟩

/-! ### C4 — function endpoint request handling -/

/-- C4: a non-POST request gets 405 and the wrapped function is not invoked;
with a validator present, validation runs on the raw body before structural
decoding and a failure gets 400 with the aggregated per-field errors, the
function not invoked — regardless of whether the body would decode; a
payload with a field unknown to the input type gets 400 without invoking the
function, whether the validator is absent or present and passing; a body
that does not decode gets 400; a function error gets 500 with the error
text; success gets 200 with the encoded output. -/
theorem handler_request_contract {Out : Type} (typeFields : List String)
    (validator : Option (Body → ValidationResult))
    (fn : List (String × String) → Except String Out)
    (enc : Out → String) (r : Request) :
    (r.method ≠ "POST" →
      NewFunctionHandler typeFields validator fn enc r =
        { response := { status := 405, body := "method not allowed" }, invoked := false })
    ∧ (∀ v, r.method = "POST" → r.readOk = true → validator = some v →
        (v r.body).IsValid = false →
        NewFunctionHandler typeFields validator fn enc r =
          { response := { status := 400
                          body := "invalid input: " ++ String.intercalate ", "
                            ((v r.body).errors.map (fun fe => fe.1 ++ ": " ++ fe.2)) }
            invoked := false })
    ∧ (r.method = "POST" → decodeInput typeFields validator r = Except.error "decode error" →
        NewFunctionHandler typeFields validator fn enc r =
          { response := { status := 400, body := "decode error" }, invoked := false })
    ∧ (∀ fs f, r.method = "POST" → r.readOk = true →
        (∀ v, validator = some v → (v r.body).IsValid = true) →
        r.body.parsed = some fs →
        fs.find? (fun p => !(typeFields.contains p.1)) = some f →
        NewFunctionHandler typeFields validator fn enc r =
          { response := { status := 400, body := "json: unknown field " ++ f.1 }
            invoked := false })
    ∧ (∀ req e, r.method = "POST" → decodeInput typeFields validator r = Except.ok req →
        fn req = Except.error e →
        NewFunctionHandler typeFields validator fn enc r =
          { response := { status := 500, body := e }, invoked := true })
    ∧ (∀ req out, r.method = "POST" → decodeInput typeFields validator r = Except.ok req →
        fn req = Except.ok out →
        NewFunctionHandler typeFields validator fn enc r =
          { response := { status := 200, body := enc out }, invoked := true }) := by
  refine ⟨?_, ?_, ?_, ?_, ?_, ?_⟩
  · intro hm
    simp only [NewFunctionHandler, if_pos hm]
  · intro v hm hro hv hval
    have hdec : decodeInput typeFields validator r =
        Except.error ("invalid input: " ++ String.intercalate ", "
          ((v r.body).errors.map (fun fe => fe.1 ++ ": " ++ fe.2))) := by
      simp only [decodeInput, hro, hv, hval]
      rfl
    unfold NewFunctionHandler
    rw [if_neg (by simp [hm]), hdec]
  · intro hm hdec
    unfold NewFunctionHandler
    rw [if_neg (by simp [hm]), hdec]
  · intro fs f hm hro hvpass hparsed hfind
    have hdec : decodeInput typeFields validator r =
        Except.error ("json: unknown field " ++ f.1) := by
      unfold decodeInput
      rw [if_neg (by simp [hro])]
      cases hv : validator with
      | none =>
        simp only [decodeDisallowUnknown, hparsed, hfind]
      | some v =>
        have hval : (v r.body).IsValid = true := hvpass v hv
        simp only []
        rw [if_neg (by simp [hval])]
        simp only [decodeDisallowUnknown, hparsed, hfind]
    unfold NewFunctionHandler
    rw [if_neg (by simp [hm]), hdec]
  · intro req e hm hdec hfn
    unfold NewFunctionHandler
    rw [if_neg (by simp [hm]), hdec]
    simp only []
    rw [hfn]
  · intro req out hm hdec hfn
    unfold NewFunctionHandler
    rw [if_neg (by simp [hm]), hdec]
    simp only []
    rw [hfn]

/-- C4 witness: at concrete requests, a failing validator yields 400 with
the aggregated per-field errors and the function is never invoked; and with
a passing validator present, a payload carrying a field unknown to the
input type still yields 400 without invoking the function. -/
theorem handler_request_contract_witness :
    (@NewFunctionHandler String ["name"]
      (some (fun _ => { errors := [("name", "minLength")] }))
      (fun _ => Except.ok "out") (fun s => s)
      { method := "POST", readOk := true, body := { parsed := some [("name", "x")] } } =
      { response := { status := 400, body := "invalid input: name: minLength" }
        invoked := false })
    ∧ (@NewFunctionHandler String ["name"]
      (some (fun _ => { errors := [] }))
      (fun _ => Except.ok "out") (fun s => s)
      { method := "POST", readOk := true
        body := { parsed := some [("name", "x"), ("extra", "y")] } } =
      { response := { status := 400, body := "json: unknown field extra" }
        invoked := false }) :=
  ⟨(handler_request_contract ["name"]
      (some (fun _ => { errors := [("name", "minLength")] }))
      (fun _ => Except.ok "out") (fun s => s)
      { method := "POST", readOk := true, body := { parsed := some [("name", "x")] } }).2.1
    (fun _ => { errors := [("name", "minLength")] }) rfl rfl rfl rfl,
   (handler_request_contract ["name"]
      (some (fun _ => { errors := [] }))
      (fun _ => Except.ok "out") (fun s => s)
      { method := "POST", readOk := true
        body := { parsed := some [("name", "x"), ("extra", "y")] } }).2.2.2.1
    [("name", "x"), ("extra", "y")] ("extra", "y") rfl rfl
    (fun v hv => by injection hv with h; rw [← h]; rfl) rfl (by decide)⟩

/-- The client state that `Client.Close`'s deferred block leaves behind:
every lifecycle field nilled out. -/
def clearedState (c : Client) : Client :=
  { c with commandContext := none, cancel := none, heartbeatChan := none,
           connection := none, httpClient := none }

/-! ### Branch equations for `Client.Open` -/

theorem open_already_running (c : Client) (env : OpenEnv)
    (h : c.commandContext.isSome = true) :
    c.Open env = { client := c
                   res := Except.error (PluginError.plain "plugin is already running")
                   spawned := false, processKilled := false } := by
  unfold Client.Open
  rw [if_pos h]

theorem open_stat_error (c : Client) (env : OpenEnv)
    (hcc : c.commandContext = none) (hst : env.statResult = none) :
    c.Open env = { client := c
                   res := Except.error (PluginError.notFound (some "stat error"))
                   spawned := false, processKilled := false } := by
  unfold Client.Open
  rw [if_neg (by simp [hcc])]
  simp only [hst]

theorem open_is_dir (c : Client) (env : OpenEnv) (fi : FileInfo)
    (hcc : c.commandContext = none) (hst : env.statResult = some fi)
    (hdir : fi.isDir = true) :
    c.Open env = { client := c
                   res := Except.error (PluginError.notFound none)
                   spawned := false, processKilled := false } := by
  unfold Client.Open
  rw [if_neg (by simp [hcc])]
  simp only [hst]
  rw [if_pos hdir]

theorem open_not_executable (c : Client) (env : OpenEnv) (fi : FileInfo)
    (hcc : c.commandContext = none) (hst : env.statResult = some fi)
    (hdir : fi.isDir = false) (hmode : fi.mode &&& 0o111 = 0) :
    c.Open env = { client := c
                   res := Except.error (PluginError.execution "plugin must be an executable")
                   spawned := false, processKilled := false } := by
  unfold Client.Open
  rw [if_neg (by simp [hcc])]
  simp only [hst]
  rw [if_neg (by simp [hdir]), if_pos hmode]

theorem open_start_failed (c : Client) (env : OpenEnv) (fi : FileInfo)
    (hcc : c.commandContext = none) (hst : env.statResult = some fi)
    (hdir : fi.isDir = false) (hmode : fi.mode &&& 0o111 ≠ 0)
    (hstart : env.startOk = false) :
    c.Open env = { client := clearedState c
                   res := Except.error (PluginError.execution "failed to start process")
                   spawned := false, processKilled := false } := by
  unfold Client.Open
  rw [if_neg (by simp [hcc])]
  simp only [hst]
  rw [if_neg (by simp [hdir]), if_neg hmode, if_pos hstart]
  simp only [Client.Close]
  rfl

theorem open_read_failed (c : Client) (env : OpenEnv) (fi : FileInfo)
    (hcc : c.commandContext = none) (hst : env.statResult = some fi)
    (hdir : fi.isDir = false) (hmode : fi.mode &&& 0o111 ≠ 0)
    (hstart : env.startOk = true) (hrl : env.readLine = none) :
    c.Open env = { client := clearedState c
                   res := Except.error (PluginError.execution "failed to read stdout line")
                   spawned := true, processKilled := true } := by
  unfold Client.Open
  rw [if_neg (by simp [hcc])]
  simp only [hst]
  rw [if_neg (by simp [hdir]), if_neg hmode, if_neg (by simp [hstart])]
  simp only [hrl, Client.Close]
  rfl

theorem open_bad_port (c : Client) (env : OpenEnv) (fi : FileInfo) (line : String)
    (hcc : c.commandContext = none) (hst : env.statResult = some fi)
    (hdir : fi.isDir = false) (hmode : fi.mode &&& 0o111 ≠ 0)
    (hstart : env.startOk = true) (hrl : env.readLine = some line)
    (hatoi : goAtoi (trimSpace line) = none) :
    c.Open env = { client := clearedState c
                   res := Except.error (PluginError.execution
                     ("invalid port received from plugin: " ++ trimSpace line))
                   spawned := true, processKilled := true } := by
  unfold Client.Open
  rw [if_neg (by simp [hcc])]
  simp only [hst]
  rw [if_neg (by simp [hdir]), if_neg hmode, if_neg (by simp [hstart])]
  simp only [hrl, hatoi, Client.Close]
  rfl

theorem open_health_failed (c : Client) (env : OpenEnv) (fi : FileInfo)
    (line : String) (n : Int)
    (hcc : c.commandContext = none) (hst : env.statResult = some fi)
    (hdir : fi.isDir = false) (hmode : fi.mode &&& 0o111 ≠ 0)
    (hstart : env.startOk = true) (hrl : env.readLine = some line)
    (hatoi : goAtoi (trimSpace line) = some n) (hh : env.healthOk = false) :
    c.Open env = { client := clearedState c
                   res := Except.error (PluginError.execution
                     "timeout waiting for plugin to become healthy")
                   spawned := true, processKilled := true } := by
  unfold Client.Open
  rw [if_neg (by simp [hcc])]
  simp only [hst]
  rw [if_neg (by simp [hdir]), if_neg hmode, if_neg (by simp [hstart])]
  simp only [hrl, hatoi]
  rw [if_pos hh]
  simp only [Client.Close]
  rfl

theorem open_success (c : Client) (env : OpenEnv) (fi : FileInfo)
    (line : String) (n : Int)
    (hcc : c.commandContext = none) (hst : env.statResult = some fi)
    (hdir : fi.isDir = false) (hmode : fi.mode &&& 0o111 ≠ 0)
    (hstart : env.startOk = true) (hrl : env.readLine = some line)
    (hatoi : goAtoi (trimSpace line) = some n) (hh : env.healthOk = true) :
    (c.Open env).res = Except.ok ()
    ∧ (c.Open env).client.connection =
        some { FunctionExecutionTimeout := 0
               BaseURL := defaultSchema ++ defaultHost ++ ":" ++ trimSpace line }
    ∧ (c.Open env).client.commandContext.isSome = true
    ∧ (c.Open env).spawned = true ∧ (c.Open env).processKilled = false := by
  have hopen : c.Open env =
      { client :=
          (if 0 < c.heartbeatInterval then
            { c with cancel := some ()
                     commandContext := some { process := some { killResult := env.killResult } }
                     connection := some { FunctionExecutionTimeout := 0
                                          BaseURL := defaultSchema ++ defaultHost ++ ":" ++ trimSpace line }
                     httpClient := some c.functionExecutionTimeout
                     heartbeatChan := some () }
          else
            { c with cancel := some ()
                     commandContext := some { process := some { killResult := env.killResult } }
                     connection := some { FunctionExecutionTimeout := 0
                                          BaseURL := defaultSchema ++ defaultHost ++ ":" ++ trimSpace line }
                     httpClient := some c.functionExecutionTimeout })
        res := Except.ok (), spawned := true, processKilled := false } := by
    unfold Client.Open
    rw [if_neg (by simp [hcc])]
    simp only [hst]
    rw [if_neg (by simp [hdir]), if_neg hmode, if_neg (by simp [hstart])]
    simp only [hrl, hatoi]
    rw [if_neg (by simp [hh])]
  rw [hopen]
  by_cases hb : 0 < c.heartbeatInterval
  · rw [if_pos hb]
    exact ⟨rfl, rfl, rfl, rfl, rfl⟩
  · rw [if_neg hb]
    exact ⟨rfl, rfl, rfl, rfl, rfl⟩

/-! ### C3 — Open error classification -/

/-- C3: for a client with no running command context and any environment in
which a health probe can only succeed against a positive announced port,
`Open` returns a `PluginNotFoundError` exactly when `os.Stat` fails or the
path is a directory, and a `PluginExecutionError` when the file is not
executable, the process fails to start, the first stdout line cannot be
read, the trimmed line is not `Atoi`-parseable, the parsed port is zero or
negative (health polling can never succeed there, so startup times out), or
health polling reports failure. -/
theorem open_error_classification (c : Client) (env : OpenEnv)
    (hcc : c.commandContext = none) (hre : env.realistic) :
    ((∃ w, (c.Open env).res = Except.error (PluginError.notFound w)) ↔
      (env.statResult = none ∨ ∃ fi, env.statResult = some fi ∧ fi.isDir = true))
    ∧ (∀ fi, env.statResult = some fi → fi.isDir = false → fi.mode &&& 0o111 = 0 →
        (c.Open env).res = Except.error (PluginError.execution "plugin must be an executable"))
    ∧ (∀ fi, env.statResult = some fi → fi.isDir = false → fi.mode &&& 0o111 ≠ 0 →
        ((env.startOk = false →
           (c.Open env).res = Except.error (PluginError.execution "failed to start process"))
        ∧ (env.startOk = true → env.readLine = none →
           (c.Open env).res = Except.error (PluginError.execution "failed to read stdout line"))
        ∧ (∀ line, env.startOk = true → env.readLine = some line →
            goAtoi (trimSpace line) = none →
            (c.Open env).res = Except.error (PluginError.execution
              ("invalid port received from plugin: " ++ trimSpace line)))
        ∧ (∀ line n, env.startOk = true → env.readLine = some line →
            goAtoi (trimSpace line) = some n → n ≤ 0 →
            (c.Open env).res = Except.error (PluginError.execution
              "timeout waiting for plugin to become healthy"))
        ∧ (∀ line n, env.startOk = true → env.readLine = some line →
            goAtoi (trimSpace line) = some n → env.healthOk = false →
            (c.Open env).res = Except.error (PluginError.execution
              "timeout waiting for plugin to become healthy")))) := by
  refine ⟨⟨?_, ?_⟩, ?_, ?_⟩
  · rintro ⟨w, hw⟩
    cases hst : env.statResult with
    | none => exact Or.inl rfl
    | some fi =>
      cases hdir : fi.isDir with
      | true => exact Or.inr ⟨fi, rfl, hdir⟩
      | false =>
        exfalso
        by_cases hmode : fi.mode &&& 0o111 = 0
        · rw [open_not_executable c env fi hcc hst hdir hmode] at hw
          simp at hw
        · cases hstart : env.startOk with
          | false =>
            rw [open_start_failed c env fi hcc hst hdir hmode hstart] at hw
            simp at hw
          | true =>
            cases hrl : env.readLine with
            | none =>
              rw [open_read_failed c env fi hcc hst hdir hmode hstart hrl] at hw
              simp at hw
            | some line =>
              cases hatoi : goAtoi (trimSpace line) with
              | none =>
                rw [open_bad_port c env fi line hcc hst hdir hmode hstart hrl hatoi] at hw
                simp at hw
              | some n =>
                cases hh : env.healthOk with
                | false =>
                  rw [open_health_failed c env fi line n hcc hst hdir hmode hstart
                    hrl hatoi hh] at hw
                  simp at hw
                | true =>
                  rw [(open_success c env fi line n hcc hst hdir hmode hstart
                    hrl hatoi hh).1] at hw
                  simp at hw
  · rintro (hst | ⟨fi, hst, hdir⟩)
    · exact ⟨some "stat error", by rw [open_stat_error c env hcc hst]⟩
    · exact ⟨none, by rw [open_is_dir c env fi hcc hst hdir]⟩
  · intro fi hst hdir hmode
    rw [open_not_executable c env fi hcc hst hdir hmode]
  · intro fi hst hdir hmode
    refine ⟨?_, ?_, ?_, ?_, ?_⟩
    · intro hstart
      rw [open_start_failed c env fi hcc hst hdir hmode hstart]
    · intro hstart hrl
      rw [open_read_failed c env fi hcc hst hdir hmode hstart hrl]
    · intro line hstart hrl hatoi
      rw [open_bad_port c env fi line hcc hst hdir hmode hstart hrl hatoi]
    · intro line n hstart hrl hatoi hneg
      cases hh : env.healthOk with
      | false =>
        rw [open_health_failed c env fi line n hcc hst hdir hmode hstart hrl hatoi hh]
      | true =>
        exfalso
        obtain ⟨m, hm, hmpos⟩ := hre hh line hrl
        rw [hatoi] at hm
        have : n = m := by injection hm
        omega
    · intro line n hstart hrl hatoi hh
      rw [open_health_failed c env fi line n hcc hst hdir hmode hstart hrl hatoi hh]

/-- C3 witness: a missing path is classified as `PluginNotFoundError`. -/
theorem open_error_classification_witness :
    ∃ w, ((New "p").Open { statResult := none, startOk := false, killResult := none
                           readLine := none, healthOk := false }).res =
      Except.error (PluginError.notFound w) :=
  (open_error_classification (New "p")
    { statResult := none, startOk := false, killResult := none
      readLine := none, healthOk := false } rfl
    (by intro h; exact absurd h (by decide))).1.mpr (Or.inl rfl)

/-! ### C5 — Open atomicity -/

/-- C5: `Open` fails immediately, changing nothing, when a command context
already exists; whenever `Open` fails after the process was spawned, the
process has been killed and the connection, command context, HTTP client and
cancel function are all cleared before returning; and on success a
connection and a command context are installed (the `Option`-typed fields
can hold at most one of each). -/
theorem open_atomic (c : Client) (env : OpenEnv) :
    (c.commandContext.isSome = true →
      (c.Open env).client = c
      ∧ (c.Open env).res = Except.error (PluginError.plain "plugin is already running"))
    ∧ (c.commandContext = none → (c.Open env).spawned = true →
        ∀ e, (c.Open env).res = Except.error e →
          (c.Open env).processKilled = true
          ∧ (c.Open env).client.connection = none
          ∧ (c.Open env).client.commandContext = none
          ∧ (c.Open env).client.httpClient = none
          ∧ (c.Open env).client.cancel = none)
    ∧ (c.commandContext = none → (c.Open env).res = Except.ok () →
        (c.Open env).client.connection.isSome = true
        ∧ (c.Open env).client.commandContext.isSome = true) := by
  refine ⟨?_, ?_, ?_⟩
  · intro h
    rw [open_already_running c env h]
    exact ⟨rfl, rfl⟩
  · intro hcc hsp e he
    cases hst : env.statResult with
    | none =>
      rw [open_stat_error c env hcc hst] at hsp
      simp at hsp
    | some fi =>
      cases hdir : fi.isDir with
      | true =>
        rw [open_is_dir c env fi hcc hst hdir] at hsp
        simp at hsp
      | false =>
        by_cases hmode : fi.mode &&& 0o111 = 0
        · rw [open_not_executable c env fi hcc hst hdir hmode] at hsp
          simp at hsp
        · cases hstart : env.startOk with
          | false =>
            rw [open_start_failed c env fi hcc hst hdir hmode hstart] at hsp
            simp at hsp
          | true =>
            cases hrl : env.readLine with
            | none =>
              rw [open_read_failed c env fi hcc hst hdir hmode hstart hrl]
              exact ⟨rfl, rfl, rfl, rfl, rfl⟩
            | some line =>
              cases hatoi : goAtoi (trimSpace line) with
              | none =>
                rw [open_bad_port c env fi line hcc hst hdir hmode hstart hrl hatoi]
                exact ⟨rfl, rfl, rfl, rfl, rfl⟩
              | some n =>
                cases hh : env.healthOk with
                | false =>
                  rw [open_health_failed c env fi line n hcc hst hdir hmode hstart
                    hrl hatoi hh]
                  exact ⟨rfl, rfl, rfl, rfl, rfl⟩
                | true =>
                  exfalso
                  rw [(open_success c env fi line n hcc hst hdir hmode hstart
                    hrl hatoi hh).1] at he
                  simp at he
  · intro hcc hok
    cases hst : env.statResult with
    | none =>
      rw [open_stat_error c env hcc hst] at hok
      simp at hok
    | some fi =>
      cases hdir : fi.isDir with
      | true =>
        rw [open_is_dir c env fi hcc hst hdir] at hok
        simp at hok
      | false =>
        by_cases hmode : fi.mode &&& 0o111 = 0
        · rw [open_not_executable c env fi hcc hst hdir hmode] at hok
          simp at hok
        · cases hstart : env.startOk with
          | false =>
            rw [open_start_failed c env fi hcc hst hdir hmode hstart] at hok
            simp at hok
          | true =>
            cases hrl : env.readLine with
            | none =>
              rw [open_read_failed c env fi hcc hst hdir hmode hstart hrl] at hok
              simp at hok
            | some line =>
              cases hatoi : goAtoi (trimSpace line) with
              | none =>
                rw [open_bad_port c env fi line hcc hst hdir hmode hstart hrl hatoi] at hok
                simp at hok
              | some n =>
                cases hh : env.healthOk with
                | false =>
                  rw [open_health_failed c env fi line n hcc hst hdir hmode hstart
                    hrl hatoi hh] at hok
                  simp at hok
                | true =>
                  obtain ⟨-, hconn, hcmd, -, -⟩ := open_success c env fi line n hcc hst
                    hdir hmode hstart hrl hatoi hh
                  exact ⟨by rw [hconn]; rfl, hcmd⟩

/-- C5 witness: with an executable file whose first stdout line cannot be
read, `Open` kills the spawned process and clears all partial state. -/
theorem open_atomic_witness :
    (((New "p").Open { statResult := some { isDir := false, mode := 493 }
                       startOk := true, killResult := none
                       readLine := none, healthOk := false }).processKilled = true)
    ∧ (((New "p").Open { statResult := some { isDir := false, mode := 493 }
                         startOk := true, killResult := none
                         readLine := none, healthOk := false }).client.connection = none) := by
  have h := (open_atomic (New "p")
    { statResult := some { isDir := false, mode := 493 }
      startOk := true, killResult := none
      readLine := none, healthOk := false }).2.1 rfl (by decide)
    (PluginError.execution "failed to read stdout line") rfl
  exact ⟨h.1, h.2.1⟩

/-! ### C8 — health polling -/

/-- Loop invariant for `waitLoop`: with a positive interval and enough fuel
the loop terminates with either success or the timeout error, and succeeds
exactly when some poll instant within the deadline probes healthy. -/
theorem waitLoop_spec (probe : Nat → Bool) (deadline interval : Nat)
    (hi : 1 ≤ interval) :
    ∀ fuel now, deadline + 2 ≤ fuel + min now (deadline + 1) →
      (waitLoop probe deadline interval fuel now = some (Except.ok ()) ↔
        ∃ j, now + j * interval ≤ deadline ∧ probe (now + j * interval) = true)
      ∧ (waitLoop probe deadline interval fuel now = some (Except.ok ())
         ∨ waitLoop probe deadline interval fuel now =
             some (Except.error "timeout waiting for plugin to become healthy")) := by
  intro fuel
  induction fuel with
  | zero =>
    intro now hf
    exfalso
    have := min_le_right now (deadline + 1)
    omega
  | succ fuel ih =>
    intro now hf
    by_cases hd : deadline < now
    · have hstep : waitLoop probe deadline interval (fuel + 1) now
          = some (Except.error "timeout waiting for plugin to become healthy") := by
        simp only [waitLoop, if_pos hd]
      rw [hstep]
      refine ⟨⟨?_, ?_⟩, Or.inr rfl⟩
      · intro h; simp at h
      · rintro ⟨j, hj, -⟩
        exfalso
        have : now ≤ now + j * interval := Nat.le_add_right _ _
        omega
    · by_cases hp : probe now = true
      · have hstep : waitLoop probe deadline interval (fuel + 1) now
            = some (Except.ok ()) := by
          simp only [waitLoop, if_neg hd, if_pos hp]
        rw [hstep]
        refine ⟨⟨?_, ?_⟩, Or.inl rfl⟩
        · intro _
          refine ⟨0, ?_, ?_⟩
          · simpa using Nat.le_of_not_lt hd
          · simpa using hp
        · intro _; rfl
      · have hstep : waitLoop probe deadline interval (fuel + 1) now
            = waitLoop probe deadline interval fuel (now + interval) := by
          simp only [waitLoop, if_neg hd, if_neg hp]
        have hf' : deadline + 2 ≤ fuel + min (now + interval) (deadline + 1) := by
          have hnow : now ≤ deadline := Nat.le_of_not_lt hd
          omega
        obtain ⟨hiff, hterm⟩ := ih (now + interval) hf'
        rw [hstep]
        refine ⟨?_, hterm⟩
        rw [hiff]
        constructor
        · rintro ⟨j, hj, hpj⟩
          refine ⟨j + 1, ?_, ?_⟩
          · rw [show now + (j + 1) * interval = now + interval + j * interval from by ring]
            exact hj
          · rw [show now + (j + 1) * interval = now + interval + j * interval from by ring]
            exact hpj
        · rintro ⟨j, hj, hpj⟩
          cases j with
          | zero =>
            exfalso
            rw [Nat.zero_mul, Nat.add_zero] at hpj
            exact hp hpj
          | succ j =>
            refine ⟨j, ?_, ?_⟩
            · rw [show now + interval + j * interval = now + (j + 1) * interval from by ring]
              exact hj
            · rw [show now + interval + j * interval = now + (j + 1) * interval from by ring]
              exact hpj

/-- C8: with a positive poll interval, `waitForHealth` always terminates —
returning success exactly when some probe issued at a poll instant within
the configured deadline gets a 200 response, and the timeout error
otherwise (a failed probe sleeps one interval and retries; the loop gives
up once the elapsed time exceeds the deadline). -/
theorem waitForHealth_spec (probe : Nat → Bool) (timeout interval : Nat)
    (hi : 1 ≤ interval) :
    (waitForHealth probe timeout interval = some (Except.ok ()) ↔
      ∃ j, j * interval ≤ timeout ∧ probe (j * interval) = true)
    ∧ (waitForHealth probe timeout interval = some (Except.ok ())
       ∨ waitForHealth probe timeout interval =
           some (Except.error "timeout waiting for plugin to become healthy")) := by
  have h := waitLoop_spec probe timeout interval hi (timeout + 2) 0 (by simp)
  unfold waitForHealth
  refine ⟨?_, h.2⟩
  rw [h.1]
  constructor
  · rintro ⟨j, hj, hpj⟩
    exact ⟨j, by simpa using hj, by simpa using hpj⟩
  · rintro ⟨j, hj, hpj⟩
    exact ⟨j, by simpa using hj, by simpa using hpj⟩

/-- C8 witness: a probe that is immediately healthy succeeds with a zero
deadline and the default-like interval 1. -/
theorem waitForHealth_spec_witness :
    waitForHealth (fun _ => true) 0 1 = some (Except.ok ()) :=
  (waitForHealth_spec (fun _ => true) 0 1 (Nat.le_refl 1)).1.mpr
    ⟨0, by decide, rfl⟩

end Pluggo
